import Mathlib

/-
Verification development for the Angle quota-gated delivery engine.

The definitions below are a shallow embedding of the repository code:
  - app/telegram/handlers.py   (sync Mongo bot: ensure_user_doc, _send_video_flow,
                                the iwatched branch of _handle_callback)
  - server.py                  (motor variant: the free_video branch and the
                                ad_check reset of _handle_callback)
  - app/ads/service.py         (create_ad_session, mark_completed)
  - ads/service.py             (the duplicate, unguarded mark_completed)
  - app/web/ad_routes.py       (ad_callback completion endpoint)
  - app/telegram/video_service.py (get_unseen_video_for_user, record_sent,
                                send_one_video)
Mongo documents become Lean structures; each update_one call is embedded as the
pure state transformation it performs on the matched document.
-/

/-- CatalogItem as stored in the videos collection: documents carry an optional
file_id and a caption (see _handle_channel_post in server.py and
get_next_video_for_user in app/telegram/handlers.py, which read exactly these
fields). -/
structure Video where
  file_id : Option String
  caption : String
deriving DecidableEq

/-- User document of app/telegram/handlers.py (ensure_user_doc inserts user_id,
free_remaining, cursor, joined; user_id is the document key and is left
implicit here). -/
structure HUser where
  free_remaining : Int
  cursor : Nat
  joined : Bool
deriving DecidableEq

/-- FREE_LIMIT from app/config.py, default value of the FREE_LIMIT env var. -/
def FREE_LIMIT : Int := 5

/-- FREE_BATCH from server.py, default value of the FREE_BATCH env var. -/
def FREE_BATCH : Int := 5

/-- ensure_user_doc of app/telegram/handlers.py: a fresh user document has
free_remaining = FREE_LIMIT, cursor = 0, joined = False. -/
def ensure_user_doc : HUser :=
  { free_remaining := FREE_LIMIT, cursor := 0, joined := false }

/-- get_next_video_for_user of app/telegram/handlers.py: the videos collection
sorted in its stable order, skip(cursor), limit(1); None when the cursor is
past the end. The list argument is the catalog in that stable order. -/
def get_next_video_for_user (videos : List Video) (u : HUser) : Option Video :=
  (videos.drop u.cursor).head?

/-- Outcome of one _send_video_flow request, per the spec Outcome vocabulary:
adRequired corresponds to the create_ad_session branch, catalogExhausted to the
"No videos found in DB" branch, delivered to a sent video. -/
inductive FlowOutcome where
  | adRequired
  | catalogExhausted
  | delivered (v : Video)
deriving DecidableEq

/-- Result of one _send_video_flow request: outcome, user document after the
request, and how many ad sessions were inserted during the request. -/
structure FlowResult where
  outcome : FlowOutcome
  user : HUser
  sessionsCreated : Nat
deriving DecidableEq

/-- The _send_video_flow function of app/telegram/handlers.py, lines 320-355,
run to completion on one request: if free_remaining is not positive it inserts
an ad session and returns; else it fetches the next video; if none it only
reports no content; else it sends the video and applies the single
update_one increment of cursor and decrement of free_remaining. -/
def send_video_flow (videos : List Video) (u : HUser) : FlowResult :=
  if u.free_remaining ≤ 0 then
    { outcome := FlowOutcome.adRequired, user := u, sessionsCreated := 1 }
  else
    match get_next_video_for_user videos u with
    | none => { outcome := FlowOutcome.catalogExhausted, user := u, sessionsCreated := 0 }
    | some v =>
        { outcome := FlowOutcome.delivered v,
          user := { u with free_remaining := u.free_remaining - 1, cursor := u.cursor + 1 },
          sessionsCreated := 0 }

/-- Commit phase of _send_video_flow against a possibly stale read: the handler
reads the user document once (readDoc) and later applies its update_one to the
live store value. Sequentially store = readDoc and this agrees with
send_video_flow; under concurrency two requests may both commit against reads
taken before either write. -/
def flow_commit (readDoc : HUser) (videos : List Video) (store : HUser) : HUser :=
  if readDoc.free_remaining ≤ 0 then store
  else
    match get_next_video_for_user videos readDoc with
    | none => store
    | some _ =>
        { store with free_remaining := store.free_remaining - 1, cursor := store.cursor + 1 }

/-- Commit phase of the non-premium free_video branch of server.py
_handle_callback, lines 369-375: the guard compares the free_used_in_cycle
value read at dispatch time (readVal) with FREE_BATCH, and on success applies
an unconditional increment to the live store value; returns the new store
value and whether the request was granted. -/
def free_video_commit (readVal : Int) (current : Int) : Int × Bool :=
  if readVal < FREE_BATCH then (current + 1, true) else (current, false)

/-- Interleaving of two concurrent free_video requests for the same user in
server.py: both handlers read the user document (value s0) before either
writes, then both commit in turn. -/
def two_concurrent_requests (s0 : Int) : Int × Bool × Bool :=
  let c1 := free_video_commit s0 s0
  let c2 := free_video_commit s0 c1.1
  (c2.1, c1.2, c2.2)

/-- The iwatched branch of _handle_callback in app/telegram/handlers.py,
line 311: on a completed session the handler issues
update_one with a set of free_remaining to FREE_LIMIT and cursor to 0. -/
def iwatched_reset (u : HUser) : HUser :=
  { u with free_remaining := FREE_LIMIT, cursor := 0 }

/-- User document of server.py (ensure_user_doc there inserts premium_until,
video_index, free_used_in_cycle, cycle). -/
structure SUser where
  free_used_in_cycle : Int
  video_index : Nat
  cycle : Nat
  premium_until : Option Int
deriving DecidableEq

/-- The ad_check branch of server.py _handle_callback, line 419: on a
completed session it sets free_used_in_cycle to 0 and increments cycle. -/
def ad_check_reset (s : SUser) : SUser :=
  { s with free_used_in_cycle := 0, cycle := s.cycle + 1 }

/-- AdSession document shared by app/ads/service.py and ads/service.py:
token, owning user id, completed flag, completion timestamp. -/
structure AdSession where
  token : String
  user_id : Int
  completed : Bool
  completed_at : Option Nat
deriving DecidableEq

/-- mark_completed of app/ads/service.py, lines 154-156, restricted to the
document matched by the token filter: the update filter also requires
completed = False, so a completed record matches nothing and is unchanged;
the returned Bool is modified_count > 0. -/
def mark_completed (now : Nat) (s : AdSession) : AdSession × Bool :=
  if s.completed = false then
    ({ s with completed := true, completed_at := some now }, true)
  else
    (s, false)

/-- mark_completed of ads/service.py, lines 45-49, restricted to the document
matched by the token filter: the filter checks only the token, so every call
sets completed and overwrites completed_at with the current time; no
indication of a prior completion is returned. -/
def ads_mark_completed (now : Nat) (s : AdSession) : AdSession :=
  { s with completed := true, completed_at := some now }

/-- Joint state of one ad session flow: the completed flag of the session
record and how many quota resets have been applied to its owning user. -/
structure AdFlowState where
  completed : Bool
  resetCount : Nat
deriving DecidableEq

/-- Events hitting one session: a completion signal on the web callback
endpoint (ad_callback of app/web/ad_routes.py) or an I watched confirmation
in the bot (the iwatched branch of app/telegram/handlers.py). -/
inductive AdEvent where
  | complete
  | iwatched
deriving DecidableEq

/-- ad_callback of app/web/ad_routes.py, lines 25-47: looks up the session,
calls mark_completed, ignores the returned changed flag and performs no quota
reset. On the session flow state this sets completed and leaves the reset
count alone. -/
def ad_callback_step (s : AdFlowState) : AdFlowState :=
  { s with completed := true }

/-- The iwatched branch of _handle_callback in app/telegram/handlers.py,
lines 304-316: when the session record shows completed, the handler applies
the quota reset (iwatched_reset); otherwise it only sends a try-again
message. -/
def iwatched_step (s : AdFlowState) : AdFlowState :=
  if s.completed then { s with resetCount := s.resetCount + 1 } else s

/-- Dispatch of one event against the session flow state. -/
def ad_step (s : AdFlowState) (e : AdEvent) : AdFlowState :=
  match e with
  | AdEvent.complete => ad_callback_step s
  | AdEvent.iwatched => iwatched_step s

/-- Run a sequence of events against the session flow state. -/
def run_ad_events (s : AdFlowState) (es : List AdEvent) : AdFlowState :=
  es.foldl ad_step s

/-- Membership test of get_unseen_video_for_user in
app/telegram/video_service.py, lines 31-34: a candidate qualifies when its
file_id is present and not among the sent file ids. -/
def unseenOk (sent : List String) (d : Video) : Bool :=
  match d.file_id with
  | some fid => !(sent.contains fid)
  | none => false

/-- get_unseen_video_for_user of app/telegram/video_service.py, lines 22-35:
candidates are the first 200 videos in created_at order (limit(200)); the
result is the first candidate whose file_id is present and unseen. -/
def get_unseen_video_for_user (videos : List Video) (sent : List String) : Option Video :=
  (videos.take 200).find? (unseenOk sent)

/-- record_sent of app/telegram/video_service.py, line 38: addToSet on the
sent_file_ids array, an append guarded by membership. -/
def record_sent (sent : List String) (fid : String) : List String :=
  if sent.contains fid then sent else sent ++ [fid]

/-- send_one_video of app/telegram/video_service.py, lines 40-58: fetch an
unseen video; when none, report no content and leave the sent set alone; else
deliver it and record its file_id as sent. -/
def send_one_video (videos : List Video) (sent : List String) : Option Video × List String :=
  match get_unseen_video_for_user videos sent with
  | none => (none, sent)
  | some v =>
      (some v,
        match v.file_id with
        | some fid => record_sent sent fid
        | none => sent)

/-- A sequence of n delivery requests by one premium user, each observing the
sent set left by the previous one; records the item (or no content) observed
at every step. -/
def deliver_seq (videos : List Video) : Nat → List String → List (Option Video)
  | 0, _ => []
  | n + 1, sent =>
      let r := send_one_video videos sent
      r.1 :: deliver_seq videos n r.2

/-- First catalog item of the two-item scenario. -/
def item1 : Video := { file_id := some "item1", caption := "c1" }

/-- Second catalog item of the two-item scenario. -/
def item2 : Video := { file_id := some "item2", caption := "c2" }

/-- Two-item catalog of scenario C in the spec. -/
def catalog2 : List Video := [item1, item2]

/-- The callback URL built by _make_callback_url in app/ads/service.py,
lines 23-27: the direct, unshortened verification URL for a token. -/
def callback_url_of (domain token : String) : String :=
  domain ++ "/ad/callback/" ++ token

/-- AdSession document as inserted by create_ad_session of
app/ads/service.py: pending (completed = False) with the callback URL stored
and short_url filled in after the provider call. -/
structure AdSessionDoc where
  token : String
  user_id : Int
  completed : Bool
  short_url : Option String
  callback_url : String
deriving DecidableEq

/-- Return value and persisted record of create_ad_session. -/
structure CreateResult where
  persisted : AdSessionDoc
  token : String
  short_url : String
  callback_url : String
deriving DecidableEq

/-- create_ad_session of app/ads/service.py, lines 116-149, parameterized by
the outcome of the shortlink provider call (none models a failed or unusable
response of _call_shortlink_provider). The pending document is inserted before
the provider is called; on provider success short_url is set to the short
link, otherwise short_url is set to the direct callback URL, and the returned
short_url is never absent. -/
def create_ad_session (domain : String) (uid : Int) (token : String)
    (provider : Option String) : CreateResult :=
  let cb := callback_url_of domain token
  let doc : AdSessionDoc :=
    { token := token, user_id := uid, completed := false, short_url := none, callback_url := cb }
  match provider with
  | some s =>
      { persisted := { doc with short_url := some s },
        token := token, short_url := s, callback_url := cb }
  | none =>
      { persisted := { doc with short_url := some cb },
        token := token, short_url := cb, callback_url := cb }

/-- find_one on the ad_sessions collection with the two-field filter of the
iwatched branch in app/telegram/handlers.py, line 306: both token and the
requesting user id must match. -/
def find_session (store : List AdSession) (tok : String) (uid : Int) : Option AdSession :=
  store.find? (fun s => s.token == tok && s.user_id == uid)

/-- Outcome of the iwatched branch. -/
inductive IWatchedOutcome where
  | sessionNotFound
  | unlocked
  | notYetVerified
deriving DecidableEq

/-- The iwatched branch of _handle_callback in app/telegram/handlers.py,
lines 304-316, as a function of the session store, the presented token, the
requesting user id and that user document: missing session leaves the user
untouched; a completed session applies iwatched_reset; a pending one only
reports not yet verified. -/
def handle_iwatched (store : List AdSession) (tok : String) (uid : Int) (u : HUser) :
    IWatchedOutcome × HUser :=
  match find_session store tok uid with
  | none => (IWatchedOutcome.sessionNotFound, u)
  | some s =>
      if s.completed then (IWatchedOutcome.unlocked, iwatched_reset u)
      else (IWatchedOutcome.notYetVerified, u)

/-- Claim C1: the claim is right about the intended design (the spec mandates a
single atomic conditional increment), but the code performs a stale-read
check before an unconditional increment. Evaluated at the failing input: in
server.py, two concurrent free_video requests that both read
free_used_in_cycle = 4 before either writes are both granted and drive the
counter to 6 > FREE_BATCH; in app/telegram/handlers.py, two concurrent
_send_video_flow requests that both read free_remaining = 1 both deliver and
drive free_remaining to -1, so freeUsed exceeds freeLimit. -/
theorem quota_race_two_concurrent_grants :
    two_concurrent_requests 4 = (6, true, true) ∧ FREE_BATCH < 6 ∧
    (flow_commit { free_remaining := 1, cursor := 0, joined := false } catalog2
      (flow_commit { free_remaining := 1, cursor := 0, joined := false } catalog2
        { free_remaining := 1, cursor := 0, joined := false })).free_remaining = -1 ∧
    ¬ (0 : Int) ≤ -1 := by
  decide

/-- Sequential agreement: run alone against a store equal to its own read, the
commit phase reproduces exactly the user update of send_video_flow. -/
theorem send_video_flow_user_eq_commit (videos : List Video) (u : HUser) :
    (send_video_flow videos u).user = flow_commit u videos u := by
  by_cases h : u.free_remaining ≤ 0
  · simp [send_video_flow, flow_commit, h]
  · cases hv : get_next_video_for_user videos u <;>
      simp [send_video_flow, flow_commit, h, hv]

/-- Claim C2 counterexample: a single complete signal on the web callback
endpoint performs zero quota resets, and a completed session followed by two
I watched confirmations performs two quota resets; neither equals the exactly
one reset per session the claim states. -/
theorem reset_count_not_exactly_once :
    run_ad_events { completed := false, resetCount := 0 } [AdEvent.complete] =
      { completed := true, resetCount := 0 } ∧
    run_ad_events { completed := false, resetCount := 0 }
        [AdEvent.complete, AdEvent.iwatched, AdEvent.iwatched] =
      { completed := true, resetCount := 2 } ∧
    (0 : Nat) ≠ 1 ∧ (2 : Nat) ≠ 1 := by
  decide

/-- Auxiliary step count: on a completed session every I watched confirmation
adds one quota reset. -/
theorem run_iwatched_replicate (n k : Nat) :
    run_ad_events { completed := true, resetCount := k } (List.replicate n AdEvent.iwatched) =
      { completed := true, resetCount := k + n } := by
  induction n generalizing k with
  | zero => simp [run_ad_events]
  | succ m ih =>
      have step : ad_step { completed := true, resetCount := k } AdEvent.iwatched =
          { completed := true, resetCount := k + 1 } := by
        simp [ad_step, iwatched_step]
      calc run_ad_events { completed := true, resetCount := k }
              (List.replicate (m + 1) AdEvent.iwatched)
          = run_ad_events { completed := true, resetCount := k + 1 }
              (List.replicate m AdEvent.iwatched) := by
            simp [run_ad_events, List.replicate_succ, step]
        _ = { completed := true, resetCount := k + 1 + m } := ih (k + 1)
        _ = { completed := true, resetCount := k + (m + 1) } := by
            rw [Nat.add_assoc, Nat.add_comm 1 m]

/-- Claim C2 amended: after the pending-to-completed transition the status
shows completed, but the quota reset is not tied to that transition; the web
completion endpoint never resets quota, and each I watched confirmation that
observes a completed session resets it, so a session with n confirmations
causes exactly n resets (zero or many), not exactly one. -/
theorem reset_count_equals_confirmations (n : Nat) :
    run_ad_events { completed := false, resetCount := 0 }
        (AdEvent.complete :: List.replicate n AdEvent.iwatched) =
      { completed := true, resetCount := n } := by
  have first : ad_step { completed := false, resetCount := 0 } AdEvent.complete =
      { completed := true, resetCount := 0 } := by
    simp [ad_step, ad_callback_step]
  calc run_ad_events { completed := false, resetCount := 0 }
          (AdEvent.complete :: List.replicate n AdEvent.iwatched)
      = run_ad_events { completed := true, resetCount := 0 }
          (List.replicate n AdEvent.iwatched) := by
        simp [run_ad_events, first]
    _ = { completed := true, resetCount := 0 + n } := run_iwatched_replicate n 0
    _ = { completed := true, resetCount := n } := by rw [Nat.zero_add]

/-- Claim C3 counterexample: the duplicate mark_completed of ads/service.py is
unguarded, so a second call after the first successful transition overwrites
completed_at with the later timestamp, a further side effect on the session
record that the claim rules out. -/
theorem legacy_mark_completed_second_call_side_effect :
    (ads_mark_completed 11 (ads_mark_completed 5
        { token := "t", user_id := 7, completed := false, completed_at := none })).completed_at =
      some 11 ∧
    ads_mark_completed 11 (ads_mark_completed 5
        { token := "t", user_id := 7, completed := false, completed_at := none }) ≠
      ads_mark_completed 5
        { token := "t", user_id := 7, completed := false, completed_at := none } := by
  decide

/-- Claim C3 amended: mark_completed of app/ads/service.py is the claimed
idempotent single-writer transition — on a pending session it flips to
completed and reports the transition, and any later call leaves the record
unchanged and reports alreadyCompleted — while the duplicate in
ads/service.py is unguarded and keeps overwriting completed_at. -/
theorem mark_completed_idempotent_transition (s : AdSession) (n m : Nat)
    (h : s.completed = false) :
    (mark_completed n s).2 = true ∧
    (mark_completed n s).1.completed = true ∧
    mark_completed m (mark_completed n s).1 = ((mark_completed n s).1, false) := by
  simp [mark_completed, h]

/-- Witness for mark_completed_idempotent_transition at a concrete pending
session. -/
theorem mark_completed_idempotent_transition_witness :
    ({ token := "t", user_id := 7, completed := false, completed_at := none } : AdSession).completed = false ∧
    ((mark_completed 5 { token := "t", user_id := 7, completed := false, completed_at := none }).2 = true ∧
     (mark_completed 5 { token := "t", user_id := 7, completed := false, completed_at := none }).1.completed = true ∧
     mark_completed 11 (mark_completed 5
        { token := "t", user_id := 7, completed := false, completed_at := none }).1 =
       ((mark_completed 5 { token := "t", user_id := 7, completed := false, completed_at := none }).1, false)) :=
  ⟨rfl, mark_completed_idempotent_transition
    { token := "t", user_id := 7, completed := false, completed_at := none } 5 11 rfl⟩

/-- Claim C4 counterexample: with the two-item catalog, five premium
deliveries yield item1, item2 and then no content three times — the seen set
is never cleared and the selection does not wrap to item1 as the claim
states. -/
theorem premium_five_deliveries_stall :
    deliver_seq catalog2 5 [] = [some item1, some item2, none, none, none] ∧
    deliver_seq catalog2 5 [] ≠ [some item1, some item2, some item1, some item2, some item1] := by
  decide

/-- Claim C4 amended: for a premium user whose seen set contains every catalog
item id, the next-item selection returns no content and leaves the seen set
unchanged — the seen set is never cleared, so the user stalls instead of
looping over the catalog. -/
theorem all_seen_yields_none (videos : List Video) (sent : List String)
    (h : ∀ d ∈ videos, ∀ f, d.file_id = some f → sent.contains f = true) :
    send_one_video videos sent = (none, sent) := by
  have hnone : get_unseen_video_for_user videos sent = none := by
    unfold get_unseen_video_for_user
    rw [List.find?_eq_none]
    intro d hd
    have hd' : d ∈ videos := List.mem_of_mem_take hd
    cases hfi : d.file_id with
    | none => simp [unseenOk, hfi]
    | some f =>
        have hc := h d hd' f hfi
        simp at hc
        simp [unseenOk, hfi, hc]
  simp [send_one_video, hnone]

/-- Witness for all_seen_yields_none: a one-item catalog fully covered by the
seen set. -/
theorem all_seen_yields_none_witness :
    (∀ d ∈ [({ file_id := some "a", caption := "c" } : Video)], ∀ f,
        d.file_id = some f → ["a"].contains f = true) ∧
    send_one_video [{ file_id := some "a", caption := "c" }] ["a"] =
      (none, ["a"]) :=
  ⟨by decide, all_seen_yields_none [{ file_id := some "a", caption := "c" }] ["a"] (by decide)⟩

/-- Claim C5: a free-tier user with quota remaining whose cursor is past the
end of the catalog (in particular an empty catalog) gets the no-content
outcome, no ad session is created and the outcome is not the ad wall. -/
theorem quota_ok_catalog_exhausted_no_session (videos : List Video) (u : HUser)
    (h1 : 0 < u.free_remaining) (h2 : videos.length ≤ u.cursor) :
    send_video_flow videos u =
      { outcome := FlowOutcome.catalogExhausted, user := u, sessionsCreated := 0 } ∧
    (send_video_flow videos u).outcome ≠ FlowOutcome.adRequired := by
  have hnot : ¬ u.free_remaining ≤ 0 := not_le.mpr h1
  have hdrop : videos.drop u.cursor = [] := List.drop_eq_nil_of_le h2
  have hmain : send_video_flow videos u =
      { outcome := FlowOutcome.catalogExhausted, user := u, sessionsCreated := 0 } := by
    simp [send_video_flow, get_next_video_for_user, hdrop, hnot]
  refine ⟨hmain, ?_⟩
  rw [hmain]
  simp

/-- Witness for quota_ok_catalog_exhausted_no_session: empty catalog and a
user with three free units left. -/
theorem quota_ok_catalog_exhausted_no_session_witness :
    (0 : Int) < 3 ∧ List.length ([] : List Video) ≤ 0 ∧
    (send_video_flow [] { free_remaining := 3, cursor := 0, joined := false } =
      { outcome := FlowOutcome.catalogExhausted,
        user := { free_remaining := 3, cursor := 0, joined := false },
        sessionsCreated := 0 } ∧
     (send_video_flow [] { free_remaining := 3, cursor := 0, joined := false }).outcome ≠
       FlowOutcome.adRequired) :=
  ⟨by decide, by decide,
    quota_ok_catalog_exhausted_no_session []
      { free_remaining := 3, cursor := 0, joined := false } (by decide) (by decide)⟩

/-- Claim C6 counterexample: with quota remaining (free_remaining = 3) and an
empty catalog, the request reports no content and leaves free_remaining at 3;
the claim says the consumed unit is kept, which would leave the counter at
the post-increment value 2 in the free_remaining encoding, but no unit is
ever consumed on this path. -/
theorem catalog_exhausted_unit_not_consumed :
    (send_video_flow [] { free_remaining := 3, cursor := 0, joined := false }).outcome =
      FlowOutcome.catalogExhausted ∧
    (send_video_flow [] { free_remaining := 3, cursor := 0, joined := false }).user.free_remaining = 3 ∧
    (send_video_flow [] { free_remaining := 3, cursor := 0, joined := false }).user.free_remaining ≠ 3 - 1 := by
  decide

/-- Claim C6 amended: when the free-tier gate passes but the catalog yields no
item, the request performs no quota mutation at all — the quota unit is only
consumed together with a successful delivery, so the user document is
entirely unchanged (nothing was consumed, so nothing is refunded). -/
theorem catalog_exhausted_state_unchanged (videos : List Video) (u : HUser)
    (h1 : 0 < u.free_remaining) (h2 : get_next_video_for_user videos u = none) :
    send_video_flow videos u =
      { outcome := FlowOutcome.catalogExhausted, user := u, sessionsCreated := 0 } := by
  have hnot : ¬ u.free_remaining ≤ 0 := not_le.mpr h1
  simp [send_video_flow, h2, hnot]

/-- Witness for catalog_exhausted_state_unchanged at the empty catalog. -/
theorem catalog_exhausted_state_unchanged_witness :
    (0 : Int) < 3 ∧
    get_next_video_for_user [] { free_remaining := 3, cursor := 0, joined := false } = none ∧
    send_video_flow [] { free_remaining := 3, cursor := 0, joined := false } =
      { outcome := FlowOutcome.catalogExhausted,
        user := { free_remaining := 3, cursor := 0, joined := false },
        sessionsCreated := 0 } :=
  ⟨by decide, by decide,
    catalog_exhausted_state_unchanged []
      { free_remaining := 3, cursor := 0, joined := false } (by decide) (by decide)⟩

/-- Claim C7 counterexample: the reset applied by the iwatched branch also
sets the catalog cursor to 0, so a user whose cursor was 7 does not keep it —
the reset is not frame-pure on the other fields of the user record. -/
theorem iwatched_reset_changes_cursor :
    (iwatched_reset { free_remaining := 1, cursor := 7, joined := true }).cursor = 0 ∧
    (iwatched_reset { free_remaining := 1, cursor := 7, joined := true }).cursor ≠ 7 := by
  decide

/-- Claim C7 amended: the reset restores the quota (free_remaining back to
FREE_LIMIT, i.e. freeUsed to 0) but is not frame-pure: the iwatched variant
also resets the cursor to 0 (joined unchanged), and the server.py ad_check
variant also increments the cycle counter (video_index and premium_until
unchanged). -/
theorem reset_effects_exact (u : HUser) (s : SUser) :
    iwatched_reset u =
      { free_remaining := FREE_LIMIT, cursor := 0, joined := u.joined } ∧
    ad_check_reset s =
      { free_used_in_cycle := 0, video_index := s.video_index, cycle := s.cycle + 1,
        premium_until := s.premium_until } := by
  exact ⟨rfl, rfl⟩

/-- Claim C8: create_ad_session always persists the session in pending state
(completed = false) for every provider outcome, and when the provider call
fails or returns an unusable response (provider = none) the user is handed
the direct, unshortened verification callback URL as fallback. -/
theorem create_ad_session_fallback_direct_url (domain : String) (uid : Int) (token : String) :
    (create_ad_session domain uid token none).persisted.completed = false ∧
    (create_ad_session domain uid token none).short_url = callback_url_of domain token ∧
    (create_ad_session domain uid token none).persisted.short_url =
      some (callback_url_of domain token) ∧
    ∀ provider : Option String,
      (create_ad_session domain uid token provider).persisted.completed = false := by
  refine ⟨rfl, rfl, rfl, ?_⟩
  intro provider
  cases provider <;> rfl

/-- Claim C9: the iwatched session lookup filters on both the token and the
requesting user id, so presenting a token whose session belongs to a
different user is answered with session-not-found and the user document is
not mutated. -/
theorem iwatched_wrong_user_session_not_found (store : List AdSession)
    (tok : String) (uid : Int) (u : HUser)
    (h : ∀ s ∈ store, s.token = tok → s.user_id ≠ uid) :
    handle_iwatched store tok uid u = (IWatchedOutcome.sessionNotFound, u) := by
  have hfind : find_session store tok uid = none := by
    unfold find_session
    rw [List.find?_eq_none]
    intro s hs hp
    simp only [Bool.and_eq_true, beq_iff_eq] at hp
    exact h s hs hp.1 hp.2
  simp [handle_iwatched, hfind]

/-- Witness for iwatched_wrong_user_session_not_found: a store holding a
completed session with the presented token but owned by user 99, queried by
user 1. -/
theorem iwatched_wrong_user_witness :
    (∀ s ∈ [({ token := "t", user_id := 99, completed := true, completed_at := some 5 } : AdSession)],
        s.token = "t" → s.user_id ≠ 1) ∧
    handle_iwatched [{ token := "t", user_id := 99, completed := true, completed_at := some 5 }]
        "t" 1 { free_remaining := 0, cursor := 2, joined := false } =
      (IWatchedOutcome.sessionNotFound,
        { free_remaining := 0, cursor := 2, joined := false }) :=
  ⟨by decide,
    iwatched_wrong_user_session_not_found
      [{ token := "t", user_id := 99, completed := true, completed_at := some 5 }]
      "t" 1 { free_remaining := 0, cursor := 2, joined := false } (by decide)⟩

/-- Claim C10: the unseen-item selection examines at most the first 200
catalog items in created_at order; whenever the seen set covers the file ids
of those first 200 items the selection returns none, regardless of any unseen
items at later positions. -/
theorem get_unseen_limited_to_first_200 (videos : List Video) (sent : List String)
    (h : ∀ d ∈ videos.take 200, unseenOk sent d = false) :
    get_unseen_video_for_user videos sent = none := by
  unfold get_unseen_video_for_user
  rw [List.find?_eq_none]
  intro d hd
  simp [h d hd]

set_option maxRecDepth 100000

/-- Witness for get_unseen_limited_to_first_200: a 201-item catalog whose
first 200 file ids are all seen; the selection returns none although item 200
is unseen. -/
theorem get_unseen_first_200_witness :
    (∀ d ∈ ((List.range 201).map
        (fun i => ({ file_id := some (toString i), caption := "" } : Video))).take 200,
      unseenOk ((List.range 200).map toString) d = false) ∧
    get_unseen_video_for_user
        ((List.range 201).map
          (fun i => ({ file_id := some (toString i), caption := "" } : Video)))
        ((List.range 200).map toString) = none ∧
    unseenOk ((List.range 200).map toString)
        { file_id := some "200", caption := "" } = true :=
  ⟨by decide,
    get_unseen_limited_to_first_200
      ((List.range 201).map
        (fun i => ({ file_id := some (toString i), caption := "" } : Video)))
      ((List.range 200).map toString) (by decide),
    by decide⟩
